import Mathlib

/-!
Verification of the Enterprise Excel Automation Feasibility Analyzer
(`excel_automation_checker.py`).  The heuristic scoring pipeline is embedded
shallowly: the workbook is a snapshot value, every stage of
`ExcelAutomationChecker` becomes a pure Lean function mirroring the Python
control flow, machine floats become exact rationals, and the caught-exception
fallbacks of each stage become explicit failure-mode parameters.
-/

namespace ExcelChecker

/-! ### String helpers (Python `in`, `.lower()`, `.upper()`, slicing, strip) -/

/-- Python `needle in hay` on character lists: contiguous-substring test. -/
def containsSub : List Char → List Char → Bool
  | needle, [] => needle.isEmpty
  | needle, c :: t => needle.isPrefixOf (c :: t) || containsSub needle t

/-- Python `needle in hay` on strings. -/
def strContains (hay needle : String) : Bool :=
  containsSub needle.data hay.data

/-- Python `s.lower()` (ASCII inputs). -/
def lowerStr (s : String) : String := ⟨s.data.map Char.toLower⟩

/-- Python `s.upper()` on character lists. -/
def upperChars (s : String) : List Char := s.data.map Char.toUpper

/-- Python `s[:n]`. -/
def strTake (n : Nat) (s : String) : String := ⟨s.data.take n⟩

/-- Python `s.strip()` on character lists. -/
def trimWs (l : List Char) : List Char :=
  ((l.dropWhile Char.isWhitespace).reverse.dropWhile Char.isWhitespace).reverse

/-- Python `s.startswith('=')`: the formula marker test of the cell scan. -/
def isFormulaStr (s : String) : Bool :=
  match s.data with
  | '=' :: _ => true
  | _ => false

/-- Clamp an integer score into `[lo, hi]`, as `max(lo, min(hi, score))`. -/
def clampZ (lo hi x : ℤ) : ℤ := max lo (min hi x)

/-- Clamp a rational into `[lo, hi]`. -/
def clampQ (lo hi x : ℚ) : ℚ := max lo (min hi x)

/-- Python `round(x, 1)` on exact rationals. -/
def round1 (x : ℚ) : ℚ := ((round (x * 10) : ℤ) : ℚ) / 10

/-- Python `round(x, 2)` on exact rationals. -/
def round2 (x : ℚ) : ℚ := ((round (x * 100) : ℤ) : ℚ) / 100

/-! ### Workbook snapshot (the decoded-workbook view the checker consumes) -/

/-- openpyxl `sheet_state`. -/
inductive SheetState where
  | visible
  | hidden
  | veryHidden
deriving DecidableEq

/-- One cell: optional stored text and the data-validation attribute signal
(`hasattr(cell, 'data_validation')`). -/
structure Cell where
  value : Option String
  dv : Bool
deriving DecidableEq

/-- One worksheet of the snapshot.  `rows` is the `iter_rows` view,
`maxCol` is `sheet.max_column`, `merged` is `len(sheet.merged_cells.ranges)`,
`protFlag` is `sheet.protection.sheet`, `hasTables` is `len(sheet.tables) > 0`. -/
structure SheetData where
  name : String
  state : SheetState
  rows : List (List Cell)
  maxCol : Nat
  merged : Nat
  protFlag : Bool
  hasTables : Bool
deriving DecidableEq

/-- The loaded workbook snapshot. -/
structure Workbook where
  sheets : List SheetData
  namedRanges : Nat
  fileBytes : Nat
  isXlsm : Bool
  hasVba : Bool
deriving DecidableEq

/-- `self.max_rows_to_analyze`. -/
def maxRowsLimit : Nat := 10000

/-- `self.max_sheets_to_analyze`. -/
def maxSheetsLimit : Nat := 50

/-- Ordered sheet names (`self.workbook.sheetnames`). -/
def sheetNames (w : Workbook) : List String := w.sheets.map SheetData.name

/-! ### `analyze_sheet_data`: the per-sheet cell scan -/

/-- The fixed priority list of function tags of the cell scan. -/
def tagFuncs : List String :=
  ["SUM", "AVERAGE", "COUNT", "IF", "VLOOKUP", "INDEX", "MATCH", "INDIRECT", "OFFSET"]

/-- First function of the priority list occurring in the upper-cased formula
(the `break` in the tagging loop). -/
def tagOf (f : String) : Option String :=
  tagFuncs.find? (fun fn => containsSub fn.data (upperChars f))

/-- The per-sheet analysis record produced by `analyze_sheet_data`. -/
structure SheetProfile where
  name : String
  maxRow : Nat
  maxCol : Nat
  totalCells : Nat
  usedCells : Nat
  formulaCells : Nat
  merged : Nat
  hasTables : Bool
  hasDV : Bool
  formulas : List String
  formulaTags : List String
  headers : List String
  protFlag : Bool
deriving DecidableEq

/-- `analyze_sheet_data`: scan the first `max_rows_to_analyze` rows, count
non-empty cells, collect formulas (truncated to 100 chars) and their tags,
detect data validation (`dv` attribute or formula data type), read headers
from row 1 (up to 20 non-empty values, each truncated to 50 chars). -/
def analyzeSheet (s : SheetData) : SheetProfile :=
  let maxRow := s.rows.length
  let totalCells := maxRow * s.maxCol
  let scanned := (s.rows.take maxRowsLimit).flatten
  let nonEmpty := scanned.filterMap (fun c => c.value.map (fun v => (v, c.dv)))
  let formulaVals := nonEmpty.filter (fun vc => isFormulaStr vc.1)
  let dvCount := (nonEmpty.filter (fun vc => vc.2 || isFormulaStr vc.1)).length
  let headers :=
    if 0 < maxRow then
      (((s.rows.headD []).filterMap Cell.value).map (strTake 50)).take 20
    else []
  { name := s.name
    maxRow := maxRow
    maxCol := s.maxCol
    totalCells := totalCells
    usedCells := nonEmpty.length
    formulaCells := formulaVals.length
    merged := s.merged
    hasTables := s.hasTables
    hasDV := 0 < dvCount
    formulas := formulaVals.map (fun vc => strTake 100 vc.1)
    formulaTags := formulaVals.filterMap (fun vc => tagOf vc.1)
    headers := headers
    protFlag := s.protFlag }

/-! ### `_calculate_consistency_score` -/

/-- Per-sheet data-consistency score: base 70, bonuses for tables (+20),
validation (+15) and headers (+10), penalties for merged-cell ratio, sparse
density and extreme formula ratio, clamped to `[0, 100]`. -/
def consistencyScore (p : SheetProfile) : ℤ :=
  let base : ℤ := 70
    + (if p.hasTables then 20 else 0)
    + (if p.hasDV then 15 else 0)
    + (if 0 < p.headers.length then 10 else 0)
  let used : ℚ := ((max 1 p.usedCells : ℕ) : ℚ)
  let mergedPen : ℤ :=
    if 0 < p.merged then
      (if (p.merged : ℚ) / used > 1/5 then -30
       else if (p.merged : ℚ) / used > 1/10 then -15
       else -5)
    else 0
  let total : ℚ := ((max 1 p.totalCells : ℕ) : ℚ)
  let densityPen : ℤ :=
    if (100 : ℚ) < total then
      (if used / total < 1/20 then -20
       else if used / total < 1/10 then -10
       else 0)
    else 0
  let formulaAdj : ℤ :=
    if (10 : ℕ) < max 1 p.usedCells then
      (if (p.formulaCells : ℚ) / used > 4/5 then -10
       else if 1/10 ≤ (p.formulaCells : ℚ) / used ∧ (p.formulaCells : ℚ) / used ≤ 1/2 then 5
       else 0)
    else 0
  clampZ 0 100 (base + mergedPen + densityPen + formulaAdj)

/-! ### `analyze_file_structure` -/

/-- The structure-analysis record consumed downstream. -/
structure StructResult where
  totalSheets : Nat
  namedRanges : Nat
  hasHidden : Bool
  hasVeryHidden : Bool
  sizeMB : ℚ
  score : ℤ
deriving DecidableEq

/-- The raw (pre-clamp) structure score: base 70, sheet-count band, named-range
bonus, hidden-sheet penalties, file-size adjustment, exactly in the order of
the Python scoring block. -/
def structureScoreCore (total named : ℕ) (hasH hasVH : Bool) (size : ℚ) : ℤ :=
  70
  + (if 1 ≤ total ∧ total ≤ 10 then 15
     else if 11 ≤ total ∧ total ≤ 20 then 5
     else if 30 < total then -20 else 0)
  + (if 0 < named then (if named ≤ 10 then 15 else 5) else 0)
  + (if hasH then -5 else 0)
  + (if hasVH then -10 else 0)
  + (if size < 5 then 5 else if 50 < size then -15 else 0)

/-- Failure modes of `analyze_file_structure`: `ok` is the normal run,
`scoringFail` an exception inside the scoring block (caught, score 50),
`criticalFail` an exception of the whole analyzer (caught, fallback record
with score 0). -/
inductive StructFailure where
  | ok
  | scoringFail
  | criticalFail
deriving DecidableEq

/-- `analyze_file_structure` over the snapshot, with its failure modes. -/
def analyzeStructure (f : StructFailure) (w : Workbook) : StructResult :=
  match f with
  | .criticalFail =>
      { totalSheets := 0, namedRanges := 0, hasHidden := false,
        hasVeryHidden := false, sizeMB := 0, score := 0 }
  | _ =>
      let total := w.sheets.length
      let hasH := w.sheets.any (fun s => s.state == SheetState.hidden)
      let hasVH := w.sheets.any (fun s => s.state == SheetState.veryHidden)
      let size := round2 ((w.fileBytes : ℚ) / (1024 * 1024))
      let raw : ℤ :=
        match f with
        | .scoringFail => 50
        | _ => structureScoreCore total w.namedRanges hasH hasVH size
      { totalSheets := total, namedRanges := w.namedRanges, hasHidden := hasH,
        hasVeryHidden := hasVH, sizeMB := size, score := clampZ 0 100 raw }

/-- The fallback structure record substituted by `generate_comprehensive_report`
when the structure stage raises (`.get` defaults of the error dict). -/
def fallbackStruct : StructResult :=
  { totalSheets := 0, namedRanges := 0, hasHidden := false,
    hasVeryHidden := false, sizeMB := 0, score := 0 }

/-! ### `analyze_formulas`: workbook-wide formula complexity -/

/-- `complex_formula_patterns`. -/
def complexVocab : List String :=
  ["INDIRECT", "OFFSET", "INDEX", "MATCH", "VLOOKUP", "HLOOKUP",
   "XLOOKUP", "SUMPRODUCT", "ARRAY", "MMULT", "TRANSPOSE",
   "PIVOT", "GETPIVOTDATA", "CUBE", "HYPERLINK"]

/-- `simple_formula_patterns`. -/
def simpleVocab : List String :=
  ["SUM", "AVERAGE", "COUNT", "MAX", "MIN", "IF", "CONCATENATE",
   "CONCAT", "LEFT", "RIGHT", "MID", "LEN", "UPPER", "LOWER",
   "ROUND", "ABS", "SQRT"]

/-- `moderate_formula_patterns`. -/
def moderateVocab : List String :=
  ["SUMIF", "COUNTIF", "AVERAGEIF", "SUMIFS", "COUNTIFS", "AVERAGEIFS",
   "IFERROR", "IFNA", "CHOOSE", "SWITCH", "IFS"]

/-- Does the upper-cased formula contain any vocabulary entry? -/
def matchesAny (vocab : List String) (fUpper : List Char) : Bool :=
  vocab.any (fun p => containsSub p.data fUpper)

/-- The two tallies of the summary: complex vs simple. -/
inductive FormulaClass where
  | complexF
  | simpleF
deriving DecidableEq

/-- `FormulaClass.complexF` as a Bool test. -/
def isComplexF : FormulaClass → Bool
  | .complexF => true
  | .simpleF => false

/-- Per-formula classification of `analyze_formulas`: first-match precedence
complex, then moderate (tallied as simple), then simple; anything matching no
vocabulary is complex. -/
def classify (f : String) : FormulaClass :=
  let fu := upperChars f
  if matchesAny complexVocab fu then .complexF
  else if matchesAny moderateVocab fu then .simpleF
  else if matchesAny simpleVocab fu then .simpleF
  else .complexF

/-- The formula-analysis record. -/
structure FormulaResult where
  totalFormulas : Nat
  complexCount : Nat
  simpleCount : Nat
  ratio : ℚ
  tags : List String
  difficulty : ℤ
deriving DecidableEq

/-- The base of the automation-difficulty score: 20 when no formulas, else
banded by the complexity ratio. -/
def difficultyBase (total : ℕ) (r : ℚ) : ℤ :=
  if total = 0 then 20
  else if r > 3/5 then 85
  else if r > 2/5 then 70
  else if r > 1/5 then 50
  else 25

/-- Automation-difficulty score: base plus a formula-count adjustment, capped
at 100 by `min(100, ...)`. -/
def difficultyScore (total : ℕ) (r : ℚ) : ℤ :=
  min 100 (difficultyBase total r
    + (if 1000 < total then 10 else if 100 < total then 5 else 0))

/-- All formulas of the first `max_sheets_to_analyze` sheets, in sheet order. -/
def collectFormulas (w : Workbook) : List String :=
  ((w.sheets.take maxSheetsLimit).map (fun s => (analyzeSheet s).formulas)).flatten

/-- All function tags of the first `max_sheets_to_analyze` sheets. -/
def collectTags (w : Workbook) : List String :=
  ((w.sheets.take maxSheetsLimit).map (fun s => (analyzeSheet s).formulaTags)).flatten

/-- `analyze_formulas` over the snapshot. -/
def analyzeFormulas (w : Workbook) : FormulaResult :=
  let fs := collectFormulas w
  let complexC := (fs.filter (fun f => isComplexF (classify f))).length
  let simpleC := (fs.filter (fun f => !isComplexF (classify f))).length
  let r : ℚ := (complexC : ℚ) / ((max 1 fs.length : ℕ) : ℚ)
  { totalFormulas := fs.length
    complexCount := complexC
    simpleCount := simpleC
    ratio := r
    tags := collectTags w
    difficulty := difficultyScore fs.length r }

/-- Fallback formula record substituted when the formula stage raises:
difficulty 100 (assume hard), everything else at its `.get` default. -/
def fallbackFormula : FormulaResult :=
  { totalFormulas := 0, complexCount := 0, simpleCount := 0,
    ratio := 0, tags := [], difficulty := 100 }

/-! ### `detect_automation_patterns` -/

/-- Month / quarter / year / period vocabularies of the time-pattern check. -/
def timeVocab : List String :=
  ["jan", "feb", "mar", "apr", "may", "jun",
   "jul", "aug", "sep", "oct", "nov", "dec",
   "january", "february", "march", "april", "june",
   "july", "august", "september", "october", "november", "december",
   "q1", "q2", "q3", "q4", "quarter",
   "2020", "2021", "2022", "2023", "2024", "2025", "2026",
   "week", "daily", "monthly", "annual", "yearly"]

/-- Does a lower-cased sheet name match any time vocabulary? -/
def isTimeName (n : String) : Bool :=
  timeVocab.any (fun p => strContains (lowerStr n) p)

/-- The three-letter month abbreviations of the repeated-structure regex. -/
def monthAbbrevs : List String :=
  ["jan", "feb", "mar", "apr", "may", "jun", "jul", "aug", "sep", "oct", "nov", "dec"]

/-- One step short of `re.sub` for digit groups: removes every digit run, a
digit run with its single leading underscore, and a digit run with its leading
whitespace run (fuel-bounded recursion, fuel = list length). -/
def stripNumAux : Nat → List Char → List Char
  | 0, _ => []
  | _ + 1, [] => []
  | fuel + 1, c :: rest =>
    if c.isDigit then stripNumAux fuel (rest.dropWhile Char.isDigit)
    else if c = '_' && (rest.headD ' ').isDigit then
      stripNumAux fuel (rest.dropWhile Char.isDigit)
    else if c.isWhitespace &&
        ((rest.dropWhile Char.isWhitespace).headD 'x').isDigit then
      stripNumAux fuel ((rest.dropWhile Char.isWhitespace).dropWhile Char.isDigit)
    else c :: stripNumAux fuel rest

/-- `re.sub(r'[0-9]+|_\d+|\s+\d+', '', name)`. -/
def stripNum (l : List Char) : List Char := stripNumAux l.length l

/-- `re.sub(r'(jan|feb|...|dec).*', '', s)`: everything from the leftmost
month-abbreviation occurrence onward is dropped. -/
def monthCut : List Char → List Char
  | [] => []
  | c :: rest =>
    if monthAbbrevs.any (fun m => m.data.isPrefixOf (c :: rest)) then []
    else c :: monthCut rest

/-- The grouping key of the repeated-structure check. -/
def baseNameOf (s : String) : List Char :=
  trimWs (monthCut ((trimWs (stripNum s.data)).map Char.toLower))

/-- The five business-process roles. -/
inductive Role where
  | dataEntry
  | calc
  | reporting
  | template
  | summaryRole
deriving DecidableEq

/-- `categorization_rules`, in iteration order, plus the page-like fallback. -/
def dataEntryKw : List String := ["input", "entry", "data", "raw", "import", "source", "form"]

def calcKw : List String := ["calc", "calculation", "compute", "process", "analysis", "logic"]

def reportKw : List String := ["report", "summary", "dashboard", "output", "results", "final"]

def templateKw : List String := ["template", "master", "base", "model", "standard"]

def summaryKw : List String := ["summary", "total", "consolidated", "overview", "aggregate"]

def pageKw : List String := ["sheet", "tab", "page"]

/-- Does the lower-cased name contain a keyword of the list? -/
def anyKw (kws : List String) (nl : String) : Bool :=
  kws.any (fun k => strContains nl k)

/-- First-match role categorization (mutually exclusive, fixed order), with the
page-like fallback into data entry. -/
def roleOf (name : String) : Option Role :=
  let nl := lowerStr name
  if anyKw dataEntryKw nl then some .dataEntry
  else if anyKw calcKw nl then some .calc
  else if anyKw reportKw nl then some .reporting
  else if anyKw templateKw nl then some .template
  else if anyKw summaryKw nl then some .summaryRole
  else if anyKw pageKw nl then some .dataEntry
  else none

/-- The pattern-analysis record. -/
structure PatternResult where
  timeBased : Bool
  repeated : Bool
  consolidation : Bool
  templateVariation : Bool
  endToEnd : Bool
  multiBonus : Bool
  dataEntrySheets : List String
  calcSheets : List String
  reportingSheets : List String
  templateSheets : List String
  summarySheets : List String
  score : Nat
deriving DecidableEq

/-- The additive pattern score: 30 (time), 25 (repetition), 20
(consolidation), 15 (template variations), 25 (end-to-end workflow),
10 (multi-pattern). -/
def patternScoreOf (tB rB cB tvB eB mB : Bool) : Nat :=
  (cond tB 30 0) + (cond rB 25 0) + (cond cB 20 0)
    + (cond tvB 15 0) + (cond eB 25 0) + (cond mB 10 0)

/-- `detect_automation_patterns` over the ordered sheet names: additive score,
never clamped inside this stage. -/
def detectPatterns (names : List String) : PatternResult :=
  let tB : Bool := decide (2 ≤ (names.filter isTimeName).length)
  let bases := (names.map baseNameOf).filter (fun b => 2 ≤ b.length)
  let rB : Bool := decide (3 ≤ names.length)
    && bases.any (fun b => decide (2 ≤ bases.count b))
  let de := names.filter (fun n => roleOf n == some Role.dataEntry)
  let ca := names.filter (fun n => roleOf n == some Role.calc)
  let re := names.filter (fun n => roleOf n == some Role.reporting)
  let te := names.filter (fun n => roleOf n == some Role.template)
  let su := names.filter (fun n => roleOf n == some Role.summaryRole)
  let cB : Bool := decide (2 ≤ de.length) && decide (1 ≤ re.length + su.length)
  let tvB : Bool := (!te.isEmpty) && decide (2 ≤ names.length - te.length)
  let eB : Bool := (!de.isEmpty) && (!ca.isEmpty) && (!re.isEmpty)
  let detected : Nat := (cond tB 1 0) + (cond rB 1 0) + (cond cB 1 0)
    + (cond tvB 1 0) + (cond eB 1 0)
  let mB : Bool := decide (3 ≤ detected)
  { timeBased := tB
    repeated := rB
    consolidation := cB
    templateVariation := tvB
    endToEnd := eB
    multiBonus := mB
    dataEntrySheets := de
    calcSheets := ca
    reportingSheets := re
    templateSheets := te
    summarySheets := su
    score := patternScoreOf tB rB cB tvB eB mB }

/-- Fallback pattern record substituted when the pattern stage raises. -/
def fallbackPattern : PatternResult :=
  { timeBased := false, repeated := false, consolidation := false,
    templateVariation := false, endToEnd := false, multiBonus := false,
    dataEntrySheets := [], calcSheets := [], reportingSheets := [],
    templateSheets := [], summarySheets := [], score := 0 }

/-! ### `identify_red_flags` -/

/-- The red-flag statements, one constructor per emitted message.  Only the
VBA flag's text contains the substrings `macro` / `vba` that the tool
recommender later searches for. -/
inductive RedFlag where
  | veryLargeFile
  | largeFile
  | excessiveSheets
  | highSheets
  | veryHighComplexRatio
  | highComplexRatio
  | veryHighFormulaCount
  | highFormulaCount
  | excessiveMergedSheet (sheet : String)
  | sparseSheet (sheet : String)
  | highTotalMerged
  | moderateTotalMerged
  | protectedSheets
  | manyFormulaHeavy
  | hiddenSheetsFlag
  | veryHiddenSheetsFlag
  | vbaDetected
  | lowConsistency
  | moderateConsistency
  | stageErrorFlag
deriving DecidableEq

/-- `'macro' in flag.lower() or 'vba' in flag.lower()`: among the emitted
texts only "VBA macros detected - requires specialized automation approach"
contains either substring. -/
def flagMentionsVba : RedFlag → Bool
  | .vbaDetected => true
  | _ => false

/-- The function-tag names whose presence in the formula-type histogram counts
as a macro indicator. -/
def vbaIndicatorTags : List String := ["CALL", "RUN", "PERSONAL", "APPLICATION"]

/-- `identify_red_flags`: file-level thresholds, per-sheet scan of the first
50 sheets, aggregate merged/protection/formula-density flags, hidden-sheet and
macro detection, and the consistency average of the first 10 sheets, in
emission order. -/
def identifyRedFlags (w : Workbook) (sr : StructResult) (fr : FormulaResult) :
    List RedFlag :=
  let f1 := if 100 < sr.sizeMB then [RedFlag.veryLargeFile]
    else if 50 < sr.sizeMB then [RedFlag.largeFile] else []
  let f2 := if 30 < sr.totalSheets then [RedFlag.excessiveSheets]
    else if 20 < sr.totalSheets then [RedFlag.highSheets] else []
  let f3 := if fr.ratio > 7/10 then [RedFlag.veryHighComplexRatio]
    else if fr.ratio > 1/2 then [RedFlag.highComplexRatio] else []
  let f4 := if 2000 < fr.totalFormulas then [RedFlag.veryHighFormulaCount]
    else if 1000 < fr.totalFormulas then [RedFlag.highFormulaCount] else []
  let profs := (w.sheets.take maxSheetsLimit).map analyzeSheet
  let perSheet := (profs.map (fun p =>
    (if 50 < p.merged then [RedFlag.excessiveMergedSheet p.name] else [])
    ++ (if 0 < p.usedCells ∧ 1000 < p.totalCells ∧
          (p.usedCells : ℚ) / (p.totalCells : ℚ) < 1/20
        then [RedFlag.sparseSheet p.name] else []))).flatten
  let totalMerged := (profs.map SheetProfile.merged).sum
  let protCount := (profs.filter SheetProfile.protFlag).length
  let heavyCount := (profs.filter (fun p =>
    decide (100 < p.usedCells) &&
    decide ((p.formulaCells : ℚ) / (p.usedCells : ℚ) > 7/10))).length
  let f5 := if 20 < totalMerged then [RedFlag.highTotalMerged]
    else if 10 < totalMerged then [RedFlag.moderateTotalMerged] else []
  let f6 := if 0 < protCount then [RedFlag.protectedSheets] else []
  let f7 := if (heavyCount : ℚ) > (sr.totalSheets : ℚ) * (1/2)
    then [RedFlag.manyFormulaHeavy] else []
  let f8 := (if sr.hasHidden then [RedFlag.hiddenSheetsFlag] else [])
    ++ (if sr.hasVeryHidden then [RedFlag.veryHiddenSheetsFlag] else [])
  let hasVbaSignal := w.isXlsm || w.hasVba
    || vbaIndicatorTags.any (fun t => fr.tags.contains t)
  let f9 := if hasVbaSignal then [RedFlag.vbaDetected] else []
  let cScores := (w.sheets.take 10).map (fun s => consistencyScore (analyzeSheet s))
  let f10 :=
    if cScores.isEmpty then []
    else if (cScores.sum : ℚ) / (cScores.length : ℚ) < 40 then [RedFlag.lowConsistency]
    else if (cScores.sum : ℚ) / (cScores.length : ℚ) < 60 then [RedFlag.moderateConsistency]
    else []
  f1 ++ f2 ++ f3 ++ f4 ++ perSheet ++ f5 ++ f6 ++ f7 ++ f8 ++ f9 ++ f10

/-! ### `identify_opportunities` -/

/-- The opportunity statements, one constructor per emitted message. -/
inductive Opportunity where
  | timeOpp
  | consolidationOpp
  | repeatedOpp
  | namedRangesOpp
  | fewSheetsOpp
  | mostlySimpleOpp
  | lowFormulaOpp
  | endToEndOpp
  | multiSourceOpp
  | smallFileOpp
  | templateOpp
  | dataEntryOpp
  | reportingOpp
  | highRoiOpp
  | goodRoiOpp
  | oppFailure
deriving DecidableEq

/-- `identify_opportunities`, in emission order, with the trailing
ROI meta-entry (≥5 or ≥3 opportunities so far). -/
def identifyOpportunities (sr : StructResult) (fr : FormulaResult)
    (pr : PatternResult) : List Opportunity :=
  let l :=
    (if pr.timeBased then [Opportunity.timeOpp] else [])
    ++ (if pr.consolidation then [Opportunity.consolidationOpp] else [])
    ++ (if pr.repeated then [Opportunity.repeatedOpp] else [])
    ++ (if 0 < sr.namedRanges then [Opportunity.namedRangesOpp] else [])
    ++ (if sr.totalSheets ≤ 10 then [Opportunity.fewSheetsOpp] else [])
    ++ (if (fr.simpleCount : ℚ) > (fr.totalFormulas : ℚ) * (7/10)
        then [Opportunity.mostlySimpleOpp] else [])
    ++ (if fr.totalFormulas < 100 then [Opportunity.lowFormulaOpp] else [])
    ++ (if pr.endToEnd then [Opportunity.endToEndOpp] else [])
    ++ (if pr.consolidation then [Opportunity.multiSourceOpp] else [])
    ++ (if sr.sizeMB < 10 then [Opportunity.smallFileOpp] else [])
    ++ (if !pr.templateSheets.isEmpty then [Opportunity.templateOpp] else [])
    ++ (if 0 < pr.dataEntrySheets.length then [Opportunity.dataEntryOpp] else [])
    ++ (if 0 < pr.reportingSheets.length then [Opportunity.reportingOpp] else [])
  l ++ (if 5 ≤ l.length then [Opportunity.highRoiOpp]
        else if 3 ≤ l.length then [Opportunity.goodRoiOpp] else [])

/-! ### `recommend_automation_tools` -/

/-- The recommendation entries, one constructor per emitted string. -/
inductive Tool where
  | pyPandasOpenpyxl
  | pyXlwings
  | pyPossible
  | powerAutomate
  | powerBiQuery
  | powerPossible
  | vbaEnhanced
  | vbaHybrid
  | vbaNative
  | rpaTools
  | desktopAutomation
  | gsheetsAppsScript
  | o365SharePoint
  | scheduledScripts
  | etlTools
  | noCodePlatforms
deriving DecidableEq

/-- The concatenated rule emissions of `recommend_automation_tools`, in rule
order, before deduplication and capping.  Arguments mirror the
`analysis_summary` metrics plus the two pattern flags read from
`analysis_results`. -/
def ruleEmissions (overall ratio size : ℚ) (hasPatterns : Bool)
    (totalFormulas : ℕ) (vbaP : Bool) (redFlagCount : ℕ)
    (timeB consB : Bool) : List Tool :=
  (if 70 ≤ overall ∧ ratio < 2/5 ∧ vbaP = false
   then [Tool.pyPandasOpenpyxl, Tool.pyXlwings]
   else if 50 ≤ overall ∧ ratio < 3/5 then [Tool.pyPossible] else [])
  ++ (if 60 ≤ overall ∧ size < 30 ∧ vbaP = false
      then [Tool.powerAutomate, Tool.powerBiQuery]
      else if 40 ≤ overall then [Tool.powerPossible] else [])
  ++ (if vbaP = true ∨ ratio > 1/2 ∨ 500 < totalFormulas
      then [Tool.vbaEnhanced, Tool.vbaHybrid]
      else if 60 ≤ overall then [Tool.vbaNative] else [])
  ++ (if overall < 50 ∨ 3 < redFlagCount
      then [Tool.rpaTools, Tool.desktopAutomation] else [])
  ++ (if hasPatterns = true ∧ size < 20 ∧ 60 ≤ overall
      then [Tool.gsheetsAppsScript, Tool.o365SharePoint] else [])
  ++ (if timeB = true then [Tool.scheduledScripts] else [])
  ++ (if consB = true then [Tool.etlTools] else [])
  ++ (if 50 ≤ overall ∧ ratio < 3/10 then [Tool.noCodePlatforms] else [])

/-- The order-preserving first-occurrence deduplication loop (`seen` set). -/
def dedupAux [DecidableEq α] (seen : List α) : List α → List α
  | [] => []
  | a :: rest =>
    if a ∈ seen then dedupAux seen rest
    else a :: dedupAux (a :: seen) rest

/-- `recommend_automation_tools`: emit by rules, deduplicate preserving order,
keep the first 8. -/
def recommendTools (overall ratio size : ℚ) (hasPatterns : Bool)
    (totalFormulas : ℕ) (vbaP : Bool) (redFlagCount : ℕ)
    (timeB consB : Bool) : List Tool :=
  (dedupAux [] (ruleEmissions overall ratio size hasPatterns totalFormulas
    vbaP redFlagCount timeB consB)).take 8

/-! ### Aggregation: tiers, scores, the Assessment -/

/-- The five feasibility tiers. -/
inductive Tier where
  | high
  | mediumHigh
  | medium
  | lowMedium
  | low
deriving DecidableEq

/-- The tier mapping with inclusive lower bounds 80 / 65 / 50 / 35. -/
def tierOf (x : ℚ) : Tier :=
  if 80 ≤ x then .high
  else if 65 ≤ x then .mediumHigh
  else if 50 ≤ x then .medium
  else if 35 ≤ x then .lowMedium
  else .low

/-- The effort-estimate bands; the source pairs one fixed string with each
feasibility tier in the same `if` chain. -/
inductive EffortBand where
  | weeks2to4
  | months1to2
  | months2to3
  | months3to4
  | months6plus
deriving DecidableEq

/-- The effort string chosen alongside each tier. -/
def effortOf : Tier → EffortBand
  | .high => .weeks2to4
  | .mediumHigh => .months1to2
  | .medium => .months2to3
  | .lowMedium => .months3to4
  | .low => .months6plus

/-- The `detailed_analysis['scores']` block (each entry `round(_, 1)`). -/
structure ScoresBlock where
  structureS : ℚ
  formulaDifficultyS : ℚ
  patternS : ℚ
  overallS : ℚ
deriving DecidableEq

/-- The final `AutomationAssessment` value (fields the scoring engine fills;
`timestamp` is the only wall-clock-dependent field). -/
structure Assessment where
  overallScore : ℚ
  feasibility : Tier
  autoRecs : List Tool
  scores : ScoresBlock
  redFlags : List RedFlag
  opps : List Opportunity
  effort : EffortBand
  tools : List Tool
  timestamp : String
  fileName : String
  fileSizeMB : ℚ
  fileSheets : ℕ
deriving DecidableEq

/-- The red-flag penalty `min(len(red_flags) * 8, 40)`. -/
def penaltyOf (rf : List RedFlag) : ℕ := min (rf.length * 8) 40

/-- The weighted sum `structure*0.3 + (100 - difficulty)*0.4 + pattern*0.3`. -/
def weightedOf (sr : StructResult) (fr : FormulaResult) (pr : PatternResult) : ℚ :=
  (sr.score : ℚ) * (3/10) + (100 - (fr.difficulty : ℚ)) * (4/10)
    + (pr.score : ℚ) * (3/10)

/-- The unrounded overall score: weighted sum minus the red-flag penalty,
floored at 0 by `max(0, ...)`. -/
def overallOf (sr : StructResult) (fr : FormulaResult) (pr : PatternResult)
    (rf : List RedFlag) : ℚ :=
  max 0 (weightedOf sr fr pr - (penaltyOf rf : ℚ))

/-- The core of `generate_comprehensive_report`, applied to the (actual or
fallback) stage outputs: weighted overall score, red-flag penalty, tier and
effort mapping, tool recommendation, scores block. -/
def generateReportCore (ts fn : String) (sr : StructResult) (fr : FormulaResult)
    (pr : PatternResult) (rf : List RedFlag) (op : List Opportunity) :
    Assessment :=
  let overall : ℚ := overallOf sr fr pr rf
  let tier := tierOf overall
  let vbaP := rf.any flagMentionsVba
  let hasPat : Bool := decide (20 < pr.score)
  let tools := recommendTools overall fr.ratio sr.sizeMB hasPat fr.totalFormulas
    vbaP rf.length pr.timeBased pr.consolidation
  { overallScore := round1 overall
    feasibility := tier
    autoRecs := tools
    scores :=
      { structureS := round1 (sr.score : ℚ)
        formulaDifficultyS := round1 (100 - (fr.difficulty : ℚ))
        patternS := round1 (pr.score : ℚ)
        overallS := round1 overall }
    redFlags := rf
    opps := op
    effort := effortOf tier
    tools := tools
    timestamp := ts
    fileName := fn
    fileSizeMB := sr.sizeMB
    fileSheets := sr.totalSheets }

/-- The full pipeline of `generate_comprehensive_report` with explicit stage
failure modes: each `true` flag models the corresponding sub-analysis raising
(caught, replaced by its fallback, surfacing only as diagnostic entries). -/
def runPipelineWith (ts fn : String) (w : Workbook) (sf : StructFailure)
    (bS bF bP bR bO : Bool) : Assessment :=
  let sr := if bS then fallbackStruct else analyzeStructure sf w
  let fr := if bF then fallbackFormula else analyzeFormulas w
  let pr := if bP then fallbackPattern else detectPatterns (sheetNames w)
  let rf := if bR then [RedFlag.stageErrorFlag] else identifyRedFlags w sr fr
  let op := if bO then [Opportunity.oppFailure] else identifyOpportunities sr fr pr
  generateReportCore ts fn sr fr pr rf op

/-- The failure-free run of the pipeline. -/
def runPipeline (ts fn : String) (w : Workbook) : Assessment :=
  runPipelineWith ts fn w .ok false false false false false

/-! ### Rounding and clamping lemmas -/

lemma roundMono {x y : ℚ} (h : x ≤ y) : round x ≤ round y := by
  rw [round_eq, round_eq]
  exact Int.floor_le_floor (by linarith)

lemma round1_nonneg {x : ℚ} (h : 0 ≤ x) : 0 ≤ round1 x := by
  unfold round1
  have h0 : (0 : ℤ) ≤ round (x * 10) := by
    have h1 := roundMono (show (0 : ℚ) ≤ x * 10 by linarith)
    simpa using h1
  have h2 : (0 : ℚ) ≤ ((round (x * 10) : ℤ) : ℚ) := by exact_mod_cast h0
  positivity

lemma round1_le_100 {x : ℚ} (h : x ≤ 199/2) : round1 x ≤ 100 := by
  unfold round1
  have h1 : round (x * 10) ≤ 995 := by
    have h2 := roundMono (show x * 10 ≤ ((995 : ℤ) : ℚ) by push_cast; linarith)
    rwa [round_intCast] at h2
  rw [div_le_iff₀ (by norm_num : (0 : ℚ) < 10)]
  calc ((round (x * 10) : ℤ) : ℚ) ≤ ((995 : ℤ) : ℚ) := by exact_mod_cast h1
    _ ≤ 100 * 10 := by norm_num

lemma round1_intCast (n : ℤ) : round1 ((n : ℚ)) = (n : ℚ) := by
  unfold round1
  rw [show ((n : ℚ) * 10) = (((n * 10 : ℤ)) : ℚ) by push_cast; ring, round_intCast]
  push_cast
  field_simp

lemma round1_natCast (n : ℕ) : round1 ((n : ℚ)) = (n : ℚ) := by
  exact_mod_cast round1_intCast (n : ℤ)

lemma round1_tenths (n : ℤ) : round1 ((n : ℚ) / 10) = (n : ℚ) / 10 := by
  unfold round1
  rw [div_mul_cancel₀ _ (by norm_num : (10 : ℚ) ≠ 0), round_intCast]

lemma round1_mono {x y : ℚ} (h : x ≤ y) : round1 x ≤ round1 y := by
  unfold round1
  rw [div_le_div_iff_of_pos_right (by norm_num : (0 : ℚ) < 10)]
  exact_mod_cast roundMono (by linarith)

lemma le_clampZ (lo hi x : ℤ) : lo ≤ clampZ lo hi x := le_max_left _ _

lemma clampZ_le {lo hi : ℤ} (x : ℤ) (h : lo ≤ hi) : clampZ lo hi x ≤ hi :=
  max_le h (min_le_left _ _)

/-! ### Stage-output bounds -/

lemma analyzeStructure_score_bounds (f : StructFailure) (w : Workbook) :
    0 ≤ (analyzeStructure f w).score ∧ (analyzeStructure f w).score ≤ 100 := by
  cases f with
  | criticalFail => exact ⟨le_refl 0, show (0 : ℤ) ≤ 100 by norm_num⟩
  | ok => exact ⟨le_clampZ _ _ _, clampZ_le _ (by norm_num)⟩
  | scoringFail => exact ⟨le_clampZ _ _ _, clampZ_le _ (by norm_num)⟩

lemma difficultyScore_bounds (t : ℕ) (r : ℚ) :
    20 ≤ difficultyScore t r ∧ difficultyScore t r ≤ 100 := by
  constructor
  · have hb : 20 ≤ difficultyBase t r := by
      unfold difficultyBase; split_ifs <;> norm_num
    have he : (0 : ℤ) ≤ (if 1000 < t then 10 else if 100 < t then 5 else 0) := by
      split_ifs <;> norm_num
    exact le_min (by norm_num) (by omega)
  · exact min_le_left _ _

lemma patternScoreOf_le (tB rB cB tvB eB mB : Bool) :
    patternScoreOf tB rB cB tvB eB mB ≤ 125 := by
  cases tB <;> cases rB <;> cases cB <;> cases tvB <;> cases eB <;> cases mB <;> decide

lemma detectPatterns_score_le (names : List String) :
    (detectPatterns names).score ≤ 125 :=
  patternScoreOf_le _ _ _ _ _ _

lemma consistencyScore_bounds (p : SheetProfile) :
    0 ≤ consistencyScore p ∧ consistencyScore p ≤ 100 :=
  ⟨le_clampZ _ _ _, clampZ_le _ (by norm_num)⟩

/-! ### Deduplication lemmas -/

lemma dedupAux_sublist [DecidableEq α] (seen : List α) (l : List α) :
    (dedupAux seen l).Sublist l := by
  induction l generalizing seen with
  | nil => exact List.Sublist.refl []
  | cons a t ih =>
    simp only [dedupAux]
    split
    · exact (ih seen).cons a
    · exact (ih (a :: seen)).cons₂ a

lemma mem_dedupAux [DecidableEq α] {seen l : List α} {x : α}
    (h : x ∈ dedupAux seen l) : x ∉ seen := by
  induction l generalizing seen with
  | nil => simp [dedupAux] at h
  | cons a t ih =>
    simp only [dedupAux] at h
    split at h
    · exact ih h
    · next hmem =>
      rcases List.mem_cons.mp h with rfl | h2
      · exact hmem
      · intro hx
        exact ih h2 (List.mem_cons_of_mem a hx)

lemma dedupAux_nodup [DecidableEq α] (seen l : List α) : (dedupAux seen l).Nodup := by
  induction l generalizing seen with
  | nil => simp [dedupAux]
  | cons a t ih =>
    simp only [dedupAux]
    split
    · exact ih seen
    · refine List.nodup_cons.mpr ⟨?_, ih (a :: seen)⟩
      intro hmem
      exact (mem_dedupAux hmem) (List.mem_cons_self a seen)

/-! ### Non-emptiness of the tool recommendation -/

lemma ruleEmissions_ne_nil (o r s : ℚ) (hp : Bool) (tf : ℕ) (vb : Bool)
    (rfc : ℕ) (tb cb : Bool) :
    ruleEmissions o r s hp tf vb rfc tb cb ≠ [] := by
  rcases lt_or_le o 50 with h | h
  · have hm : Tool.rpaTools ∈ ruleEmissions o r s hp tf vb rfc tb cb := by
      unfold ruleEmissions
      rw [if_pos (Or.inl h)]
      simp
    exact List.ne_nil_of_mem hm
  · rcases lt_or_le r (3/5) with hr | hr
    · by_cases h1 : 70 ≤ o ∧ r < 2/5 ∧ vb = false
      · have hm : Tool.pyPandasOpenpyxl ∈ ruleEmissions o r s hp tf vb rfc tb cb := by
          unfold ruleEmissions
          rw [if_pos h1]
          simp
        exact List.ne_nil_of_mem hm
      · have hm : Tool.pyPossible ∈ ruleEmissions o r s hp tf vb rfc tb cb := by
          unfold ruleEmissions
          rw [if_neg h1, if_pos (⟨h, hr⟩ : 50 ≤ o ∧ r < 3/5)]
          simp
        exact List.ne_nil_of_mem hm
    · have hm : Tool.vbaEnhanced ∈ ruleEmissions o r s hp tf vb rfc tb cb := by
        unfold ruleEmissions
        rw [if_pos (Or.inr (Or.inl (show r > 1/2 by linarith)))]
        simp
      exact List.ne_nil_of_mem hm

lemma recommendTools_ne_nil (o r s : ℚ) (hp : Bool) (tf : ℕ) (vb : Bool)
    (rfc : ℕ) (tb cb : Bool) :
    recommendTools o r s hp tf vb rfc tb cb ≠ [] := by
  unfold recommendTools
  have h := ruleEmissions_ne_nil o r s hp tf vb rfc tb cb
  rcases hL : ruleEmissions o r s hp tf vb rfc tb cb with _ | ⟨a, t⟩
  · exact absurd hL h
  · simp [dedupAux]

/-! ### The unrounded overall score is an integer number of tenths -/

lemma overallOf_tenths (sr : StructResult) (fr : FormulaResult)
    (pr : PatternResult) (rf : List RedFlag) :
    ∃ n : ℤ, overallOf sr fr pr rf = (n : ℚ) / 10 := by
  refine ⟨max 0 (3 * sr.score + (100 - fr.difficulty) * 4 + 3 * (pr.score : ℤ)
    - 10 * (penaltyOf rf : ℤ)), ?_⟩
  have key : weightedOf sr fr pr - (penaltyOf rf : ℚ)
      = ((3 * sr.score + (100 - fr.difficulty) * 4 + 3 * (pr.score : ℤ)
          - 10 * (penaltyOf rf : ℤ) : ℤ) : ℚ) / 10 := by
    unfold weightedOf
    push_cast
    ring
  unfold overallOf
  rw [key]
  rcases le_total ((3 * sr.score + (100 - fr.difficulty) * 4 + 3 * (pr.score : ℤ)
      - 10 * (penaltyOf rf : ℤ) : ℤ)) 0 with hm | hm
  · rw [max_eq_left, max_eq_left hm]
    · simp
    · have : ((3 * sr.score + (100 - fr.difficulty) * 4 + 3 * (pr.score : ℤ)
          - 10 * (penaltyOf rf : ℤ) : ℤ) : ℚ) ≤ 0 := by exact_mod_cast hm
      linarith
  · rw [max_eq_right, max_eq_right hm]
    have : (0 : ℚ) ≤ ((3 * sr.score + (100 - fr.difficulty) * 4 + 3 * (pr.score : ℤ)
        - 10 * (penaltyOf rf : ℤ) : ℤ) : ℚ) := by exact_mod_cast hm
    linarith

lemma round1_overallOf (sr : StructResult) (fr : FormulaResult)
    (pr : PatternResult) (rf : List RedFlag) :
    round1 (overallOf sr fr pr rf) = overallOf sr fr pr rf := by
  obtain ⟨n, hn⟩ := overallOf_tenths sr fr pr rf
  rw [hn, round1_tenths]

/-! ### Bounds on the aggregated scores -/

lemma overallOf_nonneg (sr : StructResult) (fr : FormulaResult)
    (pr : PatternResult) (rf : List RedFlag) : 0 ≤ overallOf sr fr pr rf :=
  le_max_left _ _

lemma weighted_sub_pen_le {sr : StructResult} {fr : FormulaResult}
    {pr : PatternResult} (rf : List RedFlag)
    (hs1 : sr.score ≤ 100) (hd0 : 20 ≤ fr.difficulty) (hp : pr.score ≤ 125) :
    weightedOf sr fr pr - (penaltyOf rf : ℚ) ≤ 199/2 := by
  unfold weightedOf
  have hpen : (0 : ℚ) ≤ (penaltyOf rf : ℚ) := Nat.cast_nonneg _
  have hs : ((sr.score : ℚ)) ≤ 100 := by exact_mod_cast hs1
  have hd : (20 : ℚ) ≤ (fr.difficulty : ℚ) := by exact_mod_cast hd0
  have hpq : ((pr.score : ℚ)) ≤ 125 := by exact_mod_cast hp
  linarith

lemma overallOf_le {sr : StructResult} {fr : FormulaResult}
    {pr : PatternResult} (rf : List RedFlag)
    (hs1 : sr.score ≤ 100) (hd0 : 20 ≤ fr.difficulty) (hp : pr.score ≤ 125) :
    overallOf sr fr pr rf ≤ 199/2 := by
  unfold overallOf
  exact max_le (by norm_num) (weighted_sub_pen_le rf hs1 hd0 hp)

/-! ### Well-formedness of the Assessment -/

/-- Every score field of the Assessment in its range: `structure_score`,
`formula_difficulty_score` and the overall score in `[0, 100]`, the pattern
score non-negative, bounded by its accumulated maximum 125, and the stored
scores-block overall equal to the Assessment's overall. -/
def ScoreBounds (a : Assessment) : Prop :=
  0 ≤ a.overallScore ∧ a.overallScore ≤ 100 ∧
  0 ≤ a.scores.structureS ∧ a.scores.structureS ≤ 100 ∧
  0 ≤ a.scores.formulaDifficultyS ∧ a.scores.formulaDifficultyS ≤ 100 ∧
  0 ≤ a.scores.patternS ∧ a.scores.patternS ≤ 125 ∧
  a.scores.overallS = a.overallScore

/-- A well-formed Assessment: scores in range, the recommendation list
non-empty and duplicated into both list fields, effort tied to the tier. -/
def WellFormedAssessment (a : Assessment) : Prop :=
  ScoreBounds a ∧ a.autoRecs = a.tools ∧ a.tools ≠ [] ∧
  a.effort = effortOf a.feasibility

lemma reportCore_scoreBounds (ts fn : String) (sr : StructResult)
    (fr : FormulaResult) (pr : PatternResult) (rf : List RedFlag)
    (op : List Opportunity)
    (hs0 : 0 ≤ sr.score) (hs1 : sr.score ≤ 100)
    (hd0 : 20 ≤ fr.difficulty) (hd1 : fr.difficulty ≤ 100)
    (hp : pr.score ≤ 125) :
    ScoreBounds (generateReportCore ts fn sr fr pr rf op) := by
  have hfd : round1 (100 - (fr.difficulty : ℚ)) = 100 - (fr.difficulty : ℚ) := by
    rw [show (100 - (fr.difficulty : ℚ)) = (((100 - fr.difficulty : ℤ)) : ℚ) by push_cast; ring]
    rw [round1_intCast]
  refine ⟨?_, ?_, ?_, ?_, ?_, ?_, ?_, ?_, rfl⟩
  · exact round1_nonneg (overallOf_nonneg sr fr pr rf)
  · exact round1_le_100 (overallOf_le rf hs1 hd0 hp)
  · show 0 ≤ round1 ((sr.score : ℚ))
    rw [round1_intCast]
    exact_mod_cast hs0
  · show round1 ((sr.score : ℚ)) ≤ 100
    rw [round1_intCast]
    exact_mod_cast hs1
  · show 0 ≤ round1 (100 - (fr.difficulty : ℚ))
    rw [hfd]
    have : (fr.difficulty : ℚ) ≤ 100 := by exact_mod_cast hd1
    linarith
  · show round1 (100 - (fr.difficulty : ℚ)) ≤ 100
    rw [hfd]
    have : (0 : ℚ) ≤ (fr.difficulty : ℚ) := by
      have : (20 : ℚ) ≤ (fr.difficulty : ℚ) := by exact_mod_cast hd0
      linarith
    linarith
  · show 0 ≤ round1 ((pr.score : ℚ))
    rw [round1_natCast]
    exact Nat.cast_nonneg _
  · show round1 ((pr.score : ℚ)) ≤ 125
    rw [round1_natCast]
    exact_mod_cast hp

lemma selStruct_bounds (b : Bool) (sf : StructFailure) (w : Workbook) :
    0 ≤ (if b then fallbackStruct else analyzeStructure sf w).score ∧
    (if b then fallbackStruct else analyzeStructure sf w).score ≤ 100 := by
  cases b
  · simpa using analyzeStructure_score_bounds sf w
  · exact ⟨le_refl 0, show (0 : ℤ) ≤ 100 by norm_num⟩

lemma selFormula_bounds (b : Bool) (w : Workbook) :
    20 ≤ (if b then fallbackFormula else analyzeFormulas w).difficulty ∧
    (if b then fallbackFormula else analyzeFormulas w).difficulty ≤ 100 := by
  cases b
  · show 20 ≤ (analyzeFormulas w).difficulty ∧ (analyzeFormulas w).difficulty ≤ 100
    exact difficultyScore_bounds _ _
  · exact ⟨show (20 : ℤ) ≤ 100 by norm_num, le_refl 100⟩

lemma selPattern_le (b : Bool) (names : List String) :
    (if b then fallbackPattern else detectPatterns names).score ≤ 125 := by
  cases b
  · simpa using detectPatterns_score_le names
  · exact Nat.zero_le 125

lemma pipeline_scoreBounds (ts fn : String) (w : Workbook) (sf : StructFailure)
    (bS bF bP bR bO : Bool) :
    ScoreBounds (runPipelineWith ts fn w sf bS bF bP bR bO) := by
  refine reportCore_scoreBounds ts fn _ _ _ _ _
    (selStruct_bounds bS sf w).1 (selStruct_bounds bS sf w).2
    (selFormula_bounds bF w).1 (selFormula_bounds bF w).2
    (selPattern_le bP (sheetNames w))

/-! ### The structure-score algorithm, as the specification words it -/

/-- Sheet-count band: +15 for 1 to 10 sheets, +5 for 11 to 20, -20 for more
than 30, neutral for 21 to 30. -/
def specSheetBand (n : ℕ) : ℤ :=
  if 1 ≤ n ∧ n ≤ 10 then 15
  else if 11 ≤ n ∧ n ≤ 20 then 5
  else if 30 < n then -20 else 0

/-- Named-range bonus: +15 for 1 to 10 named ranges, +5 for more than 10,
none for 0. -/
def specNamedBonus (n : ℕ) : ℤ :=
  if 1 ≤ n ∧ n ≤ 10 then 15
  else if 10 < n then 5 else 0

/-- Hidden-sheet penalty: -5 if any hidden sheet, a further -10 if any
very-hidden sheet. -/
def specHiddenPenalty (hasH hasVH : Bool) : ℤ :=
  (if hasH then -5 else 0) + (if hasVH then -10 else 0)

/-- Size adjustment: +5 below 5 MB, -15 above 50 MB. -/
def specSizeAdjust (size : ℚ) : ℤ :=
  if size < 5 then 5 else if 50 < size then -15 else 0

/-- The structure score the specification describes: base 70 plus the four
adjustments, clamped to `[0, 100]`. -/
def specStructureScore (w : Workbook) : ℤ :=
  clampZ 0 100 (70
    + specSheetBand w.sheets.length
    + specNamedBonus w.namedRanges
    + specHiddenPenalty (w.sheets.any (fun s => s.state == SheetState.hidden))
        (w.sheets.any (fun s => s.state == SheetState.veryHidden))
    + specSizeAdjust (round2 ((w.fileBytes : ℚ) / (1024 * 1024))))

/-! ### Concrete input workbooks for the scenario claims -/

/-- A non-empty text cell without validation metadata. -/
def plainCell (v : String) : Cell := ⟨some v, false⟩

/-- An empty visible sheet with the given name. -/
def namedSheet (n : String) : SheetData :=
  { name := n
    state := .visible
    rows := []
    maxCol := 0
    merged := 0
    protFlag := false
    hasTables := false }

/-- A workbook whose sheet names fire every pattern rule simultaneously:
time-based (Jan/Feb), repeated base name (Data), consolidation (two data-entry
sheets and reporting sheets), template with variations, end-to-end workflow,
and hence the multi-pattern bonus: pattern score 125. -/
def wbPatternMax : Workbook :=
  { sheets := ["Jan_Report", "Feb_Report", "Data1", "Data2", "Calc", "Summary",
      "Template"].map namedSheet
    namedRanges := 0
    fileBytes := 0
    isXlsm := false
    hasVba := false }

/-- The single sheet of the 1-sheet scenario: a 2-by-2 block of plain text, no
formulas, no merged cells. -/
def scenarioSheet : SheetData :=
  { name := "Sheet1"
    state := .visible
    rows := [[plainCell "Name", plainCell "Value"],
             [plainCell "A", plainCell "B"]]
    maxCol := 2
    merged := 0
    protFlag := false
    hasTables := false }

/-- The 1-sheet, 0-formula, 0-merged-cell, 0-named-range, 1 KB workbook of the
scenario claim. -/
def wbScenario : Workbook :=
  { sheets := [scenarioSheet]
    namedRanges := 0
    fileBytes := 1024
    isXlsm := false
    hasVba := false }

/-- The sheet names of the pattern scenario claim. -/
def scenarioNames : List String := ["Jan_Input", "Feb_Input", "Q1_Report", "Summary"]

/-- An empty workbook used to instantiate the overall-score claim. -/
def wbEmptyA : Workbook :=
  { sheets := [], namedRanges := 0, fileBytes := 0, isXlsm := false, hasVba := false }

/-- An empty workbook used to instantiate the classification claim. -/
def wbEmptyB : Workbook :=
  { sheets := [], namedRanges := 0, fileBytes := 0, isXlsm := false, hasVba := false }

/-- An empty workbook used to instantiate the structure-score claim. -/
def wbEmptyC : Workbook :=
  { sheets := [], namedRanges := 0, fileBytes := 0, isXlsm := false, hasVba := false }

/-! ### Last helpers for the claims -/

lemma filter_length_partition (p : α → Bool) (l : List α) :
    (l.filter p).length + (l.filter (fun a => !(p a))).length = l.length := by
  induction l with
  | nil => rfl
  | cons a t ih =>
    cases h : p a <;> simp [List.filter_cons, h] <;> omega

lemma analyzeFormulas_diff_bounds (w : Workbook) :
    20 ≤ (analyzeFormulas w).difficulty ∧ (analyzeFormulas w).difficulty ≤ 100 :=
  difficultyScore_bounds _ _

/-- The overall score as a function of the three sub-scores and the number of
red flags (the shape `round1 (max 0 (weighted - min(8r, 40)))`). -/
def overallFromParts (s fd p : ℚ) (r : ℕ) : ℚ :=
  round1 (max 0 (s * (3/10) + fd * (4/10) + p * (3/10) - ((min (r * 8) 40 : ℕ) : ℚ)))

lemma penalty_cast (rf : List RedFlag) :
    ((penaltyOf rf : ℕ) : ℚ) = min (8 * (rf.length : ℚ)) 40 := by
  unfold penaltyOf
  push_cast [Nat.cast_min]
  rw [mul_comm]

lemma clampQ_of_le {x : ℚ} (h : x ≤ 100) : clampQ 0 100 x = max 0 x := by
  unfold clampQ
  rw [min_eq_right h]

lemma overallOf_eq_clamp (sr : StructResult) (fr : FormulaResult)
    (pr : PatternResult) (rf : List RedFlag)
    (hs1 : sr.score ≤ 100) (hd0 : 20 ≤ fr.difficulty) (hp : pr.score ≤ 125) :
    overallOf sr fr pr rf
      = clampQ 0 100 (weightedOf sr fr pr - (penaltyOf rf : ℚ)) := by
  unfold overallOf
  rw [clampQ_of_le (le_trans (weighted_sub_pen_le rf hs1 hd0 hp) (by norm_num))]

set_option maxRecDepth 100000

/-! ### The claims -/

/-- C1, counterexample: the pattern score stored in the Assessment's
`detailed_analysis.scores` block is NOT always in `[0, 100]`.  For the
seven-sheet workbook `wbPatternMax` every pattern rule fires and the reported
pattern score is 125. -/
theorem claim1_counterexample :
    (runPipeline "" "patterns.xlsx" wbPatternMax).scores.patternS = 125
    ∧ ¬((runPipeline "" "patterns.xlsx" wbPatternMax).scores.patternS ≤ 100) := by
  with_unfolding_all decide

/-- C1, amended: on every run (any stage-failure combination), the structure
score, the reported formula-difficulty score and the overall score lie in
`[0, 100]`; the pattern score is non-negative but only bounded by its
accumulated maximum 125 (it is reported as accumulated, never clamped); and
every per-sheet consistency score lies in `[0, 100]`. -/
theorem claim1_scores_in_range : ∀ (ts fn : String) (w : Workbook)
    (sf : StructFailure) (bS bF bP bR bO : Bool) (sd : SheetData),
    ScoreBounds (runPipelineWith ts fn w sf bS bF bP bR bO)
    ∧ 0 ≤ consistencyScore (analyzeSheet sd)
    ∧ consistencyScore (analyzeSheet sd) ≤ 100 :=
  fun ts fn w sf bS bF bP bR bO sd =>
    ⟨pipeline_scoreBounds ts fn w sf bS bF bP bR bO,
     (consistencyScore_bounds (analyzeSheet sd)).1,
     (consistencyScore_bounds (analyzeSheet sd)).2⟩

/-- C2: with a workbook loaded, report generation is total: for every
combination of sub-analysis failures (each caught and replaced by its fallback
value, surfacing only as diagnostic entries) the result is a well-formed
Assessment — scores in range, a non-empty recommendation list, effort tied to
the tier — and no error propagates. -/
theorem claim2_total_report : ∀ (ts fn : String) (w : Workbook)
    (sf : StructFailure) (bS bF bP bR bO : Bool),
    WellFormedAssessment (runPipelineWith ts fn w sf bS bF bP bR bO) := by
  intro ts fn w sf bS bF bP bR bO
  refine ⟨pipeline_scoreBounds ts fn w sf bS bF bP bR bO, rfl, ?_, rfl⟩
  exact recommendTools_ne_nil _ _ _ _ _ _ _ _ _

/-- C3: the stored overall score equals
`structure*0.3 + (100 - difficulty)*0.4 + pattern*0.3` reduced by the penalty
`min(8*len(red_flags), 40)`, floored at 0, clamped to `[0, 100]` and rounded
to one decimal; for fixed sub-scores the overall score is non-increasing in
the number of red flags; and the penalty never exceeds 40. -/
theorem claim3_overall_formula : ∀ (ts fn : String) (w : Workbook),
    ((runPipeline ts fn w).overallScore =
      round1 (clampQ 0 100
        (((analyzeStructure .ok w).score : ℚ) * (3/10)
          + (100 - ((analyzeFormulas w).difficulty : ℚ)) * (4/10)
          + ((detectPatterns (sheetNames w)).score : ℚ) * (3/10)
          - min (8 * (((identifyRedFlags w (analyzeStructure .ok w)
              (analyzeFormulas w)).length : ℚ))) 40)))
    ∧ (∀ s fd p : ℚ, ∀ r₁ r₂ : ℕ, r₁ ≤ r₂ →
        overallFromParts s fd p r₂ ≤ overallFromParts s fd p r₁)
    ∧ (∀ rf : List RedFlag, (penaltyOf rf : ℚ) ≤ 40) := by
  intro ts fn w
  refine ⟨?_, ?_, ?_⟩
  · have heq := overallOf_eq_clamp (analyzeStructure .ok w) (analyzeFormulas w)
      (detectPatterns (sheetNames w))
      (identifyRedFlags w (analyzeStructure .ok w) (analyzeFormulas w))
      (analyzeStructure_score_bounds .ok w).2
      (analyzeFormulas_diff_bounds w).1
      (detectPatterns_score_le (sheetNames w))
    calc (runPipeline ts fn w).overallScore
        = round1 (overallOf (analyzeStructure .ok w) (analyzeFormulas w)
            (detectPatterns (sheetNames w))
            (identifyRedFlags w (analyzeStructure .ok w) (analyzeFormulas w))) := rfl
      _ = round1 (clampQ 0 100 (weightedOf (analyzeStructure .ok w)
            (analyzeFormulas w) (detectPatterns (sheetNames w))
            - ((penaltyOf (identifyRedFlags w (analyzeStructure .ok w)
                (analyzeFormulas w)) : ℕ) : ℚ))) := by rw [heq]
      _ = _ := by rw [penalty_cast]; rfl
  · intro s fd p r₁ r₂ h
    unfold overallFromParts
    apply round1_mono
    apply max_le_max le_rfl
    apply sub_le_sub_left
    have hpen : (min (r₁ * 8) 40 : ℕ) ≤ (min (r₂ * 8) 40 : ℕ) :=
      min_le_min (Nat.mul_le_mul_right 8 h) le_rfl
    exact_mod_cast hpen
  · intro rf
    have h : penaltyOf rf ≤ 40 := min_le_right _ _
    exact_mod_cast h

/-- C3, witness: the red-flag monotonicity at the concrete sub-scores
(90, 80, 0) and flag counts 1 ≤ 2, via the claim itself. -/
theorem claim3_witness :
    overallFromParts 90 80 0 2 ≤ overallFromParts 90 80 0 1
    ∧ (penaltyOf [RedFlag.stageErrorFlag] : ℚ) ≤ 40 :=
  ⟨(claim3_overall_formula "t" "e.xlsx" wbEmptyA).2.1 90 80 0 1 2 (by decide),
   (claim3_overall_formula "t" "e.xlsx" wbEmptyA).2.2 [RedFlag.stageErrorFlag]⟩

/-- C4: formula classification is total with first-match precedence
complex, then moderate (tallied as simple), then simple, and anything matching
no vocabulary lands in complex; hence the complex and simple tallies sum to
the total formula count for every workbook. -/
theorem claim4_classification_total : ∀ (w : Workbook) (f : String),
    ((analyzeFormulas w).complexCount + (analyzeFormulas w).simpleCount
      = (analyzeFormulas w).totalFormulas)
    ∧ (matchesAny complexVocab (upperChars f) = true → classify f = .complexF)
    ∧ (matchesAny complexVocab (upperChars f) = false →
        matchesAny moderateVocab (upperChars f) = true → classify f = .simpleF)
    ∧ (matchesAny complexVocab (upperChars f) = false →
        matchesAny moderateVocab (upperChars f) = false →
        matchesAny simpleVocab (upperChars f) = true → classify f = .simpleF)
    ∧ (matchesAny complexVocab (upperChars f) = false →
        matchesAny moderateVocab (upperChars f) = false →
        matchesAny simpleVocab (upperChars f) = false → classify f = .complexF) := by
  intro w f
  refine ⟨?_, ?_, ?_, ?_, ?_⟩
  · exact filter_length_partition _ _
  · intro h1
    simp [classify, h1]
  · intro h1 h2
    simp [classify, h1, h2]
  · intro h1 h2 h3
    simp [classify, h1, h2, h3]
  · intro h1 h2 h3
    simp [classify, h1, h2, h3]

/-- C4, witness: the tally identity on a concrete workbook, and the
classification of the concrete simple formula `=SUM(A1:A3)`, via the claim. -/
theorem claim4_witness :
    ((analyzeFormulas wbEmptyB).complexCount + (analyzeFormulas wbEmptyB).simpleCount
      = (analyzeFormulas wbEmptyB).totalFormulas)
    ∧ classify "=SUM(A1:A3)" = FormulaClass.simpleF :=
  ⟨(claim4_classification_total wbEmptyB "x").1,
   (claim4_classification_total wbEmptyB "=SUM(A1:A3)").2.2.2.1
     (by decide) (by decide) (by decide)⟩

/-- C5, counterexample: in the 1-sheet / 0-formula / 0-merged / 0-named-range
/ 1 KB scenario the structure score is 90 (70 + 15 + 5), not about 100, and
the overall score is 59.0, not 62.0. -/
theorem claim5_counterexample :
    (runPipeline "" "scenario.xlsx" wbScenario).scores.structureS = 90
    ∧ ¬((runPipeline "" "scenario.xlsx" wbScenario).overallScore = 62) := by
  with_unfolding_all decide

/-- C5, amended: the scenario produces structure score 90 (70 base + 15
sheet-count bonus + 5 size bonus), formula contribution 80 (100 - 20),
pattern score 0, no red flags, overall score 59.0 and feasibility tier
MEDIUM. -/
theorem claim5_scenario_amended :
    (runPipeline "" "scenario.xlsx" wbScenario).scores.structureS = 90
    ∧ (runPipeline "" "scenario.xlsx" wbScenario).scores.formulaDifficultyS = 80
    ∧ (runPipeline "" "scenario.xlsx" wbScenario).scores.patternS = 0
    ∧ (runPipeline "" "scenario.xlsx" wbScenario).redFlags = []
    ∧ (runPipeline "" "scenario.xlsx" wbScenario).overallScore = 59
    ∧ (runPipeline "" "scenario.xlsx" wbScenario).feasibility = Tier.medium := by
  with_unfolding_all decide

/-- C6, counterexample: for the sheet names Jan_Input, Feb_Input, Q1_Report,
Summary the summary role is empty — "Summary" is captured by the reporting
keyword list (which contains "summary") before the summary category is
tried — so the claimed summary-role assignment is wrong. -/
theorem claim6_counterexample :
    (detectPatterns scenarioNames).summarySheets = []
    ∧ ¬((detectPatterns scenarioNames).summarySheets = ["Summary"])
    ∧ ¬((detectPatterns scenarioNames).reportingSheets = ["Q1_Report"]) := by
  decide

/-- C6, amended: for those sheet names the detector sets the time-based flag
(+30), assigns data-entry to Jan_Input and Feb_Input, reporting to Q1_Report
AND Summary, leaves the summary role empty, sets the consolidation flag
(+20), and the pattern score is exactly 50 (hence at least 50). -/
theorem claim6_scenario_amended :
    (detectPatterns scenarioNames).timeBased = true
    ∧ (detectPatterns scenarioNames).dataEntrySheets = ["Jan_Input", "Feb_Input"]
    ∧ (detectPatterns scenarioNames).reportingSheets = ["Q1_Report", "Summary"]
    ∧ (detectPatterns scenarioNames).summarySheets = []
    ∧ (detectPatterns scenarioNames).consolidation = true
    ∧ (detectPatterns scenarioNames).score = 50
    ∧ 50 ≤ (detectPatterns scenarioNames).score := by
  decide

/-- C7: applying the tier mapping (inclusive lower bounds 80 HIGH, 65
MEDIUM-HIGH, 50 MEDIUM, 35 LOW-MEDIUM, else LOW) to the rounded overall score
stored in the scores block reproduces the Assessment's feasibility level, for
every input and every stage-failure combination. -/
theorem claim7_tier_roundtrip : ∀ (ts fn : String) (w : Workbook)
    (sf : StructFailure) (bS bF bP bR bO : Bool),
    tierOf ((runPipelineWith ts fn w sf bS bF bP bR bO).scores.overallS)
      = (runPipelineWith ts fn w sf bS bF bP bR bO).feasibility := by
  intro ts fn w sf bS bF bP bR bO
  show tierOf (round1 (overallOf _ _ _ _)) = tierOf (overallOf _ _ _ _)
  rw [round1_overallOf]

/-- C8: two runs over the identical workbook snapshot with different
timestamps produce Assessments identical in every field except the
timestamp — scores, flags, opportunities, recommendations, file metadata. -/
theorem claim8_determinism : ∀ (fn : String) (w : Workbook) (sf : StructFailure)
    (bS bF bP bR bO : Bool) (ts₁ ts₂ : String),
    (runPipelineWith ts₁ fn w sf bS bF bP bR bO).overallScore
      = (runPipelineWith ts₂ fn w sf bS bF bP bR bO).overallScore
    ∧ (runPipelineWith ts₁ fn w sf bS bF bP bR bO).feasibility
      = (runPipelineWith ts₂ fn w sf bS bF bP bR bO).feasibility
    ∧ (runPipelineWith ts₁ fn w sf bS bF bP bR bO).autoRecs
      = (runPipelineWith ts₂ fn w sf bS bF bP bR bO).autoRecs
    ∧ (runPipelineWith ts₁ fn w sf bS bF bP bR bO).scores
      = (runPipelineWith ts₂ fn w sf bS bF bP bR bO).scores
    ∧ (runPipelineWith ts₁ fn w sf bS bF bP bR bO).redFlags
      = (runPipelineWith ts₂ fn w sf bS bF bP bR bO).redFlags
    ∧ (runPipelineWith ts₁ fn w sf bS bF bP bR bO).opps
      = (runPipelineWith ts₂ fn w sf bS bF bP bR bO).opps
    ∧ (runPipelineWith ts₁ fn w sf bS bF bP bR bO).effort
      = (runPipelineWith ts₂ fn w sf bS bF bP bR bO).effort
    ∧ (runPipelineWith ts₁ fn w sf bS bF bP bR bO).tools
      = (runPipelineWith ts₂ fn w sf bS bF bP bR bO).tools
    ∧ (runPipelineWith ts₁ fn w sf bS bF bP bR bO).fileName
      = (runPipelineWith ts₂ fn w sf bS bF bP bR bO).fileName
    ∧ (runPipelineWith ts₁ fn w sf bS bF bP bR bO).fileSizeMB
      = (runPipelineWith ts₂ fn w sf bS bF bP bR bO).fileSizeMB
    ∧ (runPipelineWith ts₁ fn w sf bS bF bP bR bO).fileSheets
      = (runPipelineWith ts₂ fn w sf bS bF bP bR bO).fileSheets :=
  fun _ _ _ _ _ _ _ _ _ _ =>
    ⟨rfl, rfl, rfl, rfl, rfl, rfl, rfl, rfl, rfl, rfl, rfl⟩

/-- C9, counterexample: not every computation failure inside the structure
analyzer falls back to score 50 — a failure of the whole analyzer (its outer
exception handler) yields the fallback record with structure score 0. -/
theorem claim9_counterexample :
    (analyzeStructure .criticalFail wbEmptyC).score = 0
    ∧ ¬((analyzeStructure .criticalFail wbEmptyC).score = 50) :=
  ⟨rfl, by decide⟩

/-- C9, amended: the normal-path structure score is exactly base 70 plus the
sheet-count band (+15 for 1 to 10, +5 for 11 to 20, -20 above 30), the
named-range bonus (+15 for 1 to 10, +5 above 10), the hidden-sheet penalties
(-5 hidden, -10 very hidden) and the size adjustment (+5 below 5 MB, -15
above 50 MB), clamped to `[0, 100]`; a failure inside the scoring block
falls back to 50 (while a failure of the whole analyzer yields 0). -/
theorem claim9_structure_algorithm : ∀ w : Workbook,
    (analyzeStructure .ok w).score = specStructureScore w
    ∧ (analyzeStructure .scoringFail w).score = 50 := by
  intro w
  constructor
  · show clampZ 0 100 (structureScoreCore w.sheets.length w.namedRanges
      (w.sheets.any (fun s => s.state == SheetState.hidden))
      (w.sheets.any (fun s => s.state == SheetState.veryHidden))
      (round2 ((w.fileBytes : ℚ) / (1024 * 1024)))) = specStructureScore w
    unfold specStructureScore
    congr 1
    unfold structureScoreCore specSheetBand specNamedBonus specHiddenPenalty
      specSizeAdjust
    split_ifs <;> omega
  · show clampZ 0 100 50 = 50
    decide

/-- C10: the tool recommender is order-preserving (its output is a sublist of
the rule emissions), duplicate-free, capped at 8 entries, and never empty —
for every input at least one rule fires. -/
theorem claim10_recommendations : ∀ (o r s : ℚ) (hp : Bool) (tf : ℕ)
    (vb : Bool) (rfc : ℕ) (tb cb : Bool),
    List.Sublist (recommendTools o r s hp tf vb rfc tb cb)
      (ruleEmissions o r s hp tf vb rfc tb cb)
    ∧ (recommendTools o r s hp tf vb rfc tb cb).Nodup
    ∧ (recommendTools o r s hp tf vb rfc tb cb).length ≤ 8
    ∧ recommendTools o r s hp tf vb rfc tb cb ≠ [] := by
  intro o r s hp tf vb rfc tb cb
  refine ⟨?_, ?_, ?_, recommendTools_ne_nil o r s hp tf vb rfc tb cb⟩
  · exact (List.take_sublist _ _).trans (dedupAux_sublist [] _)
  · exact (dedupAux_nodup [] _).sublist (List.take_sublist _ _)
  · show ((dedupAux [] (ruleEmissions o r s hp tf vb rfc tb cb)).take 8).length ≤ 8
    rw [List.length_take]
    exact min_le_left _ _

end ExcelChecker
